import Mathlib

/-!
Shallow embedding of `michaelhenkel/router-rs` (`src/main.rs`).

The program drives OS networking commands (`ip ...`) to provision network
namespaces, veth pairs, interfaces and routes.  External command execution is
modelled by an oracle `Exec : List String → Bool` deciding the success of each
issued argv, and every operation additionally returns the trace of argvs it
issued (all commands are invocations of the `ip` binary, so an argv is the
argument list passed to `ip`).  The registry (`Config`) is threaded explicitly.
Machine integers are `Nat` with explicit `% 2 ^ 32` where the source performs
32-bit arithmetic (release-profile wrapping semantics).
-/

deriving instance DecidableEq for Except

namespace RouterRs

/-- Error taxonomy of the program.  In the source every error is an `anyhow`
error distinguished by its message; here the four kinds named by the spec are
separated constructors.  `commandFailure` carries the argv of the command that
failed. -/
inductive Err where
  | nameConflict : String → String → Err
  | commandFailure : List String → Err
  | addrParseFailure : Err
  | missingAddress : String → Err
deriving DecidableEq, Repr

/-- `struct Namespace { name: String }` from the source: the record holds only
the name. -/
structure Namespace where
  name : String
deriving DecidableEq, Repr

/-- `struct Link { name: String, subnet: String }`. -/
structure Link where
  name : String
  subnet : String
deriving DecidableEq, Repr

/-- `struct Interface { name, ip: Option<String>, namespace: Option<Arc<Namespace>>, mtu: Option<u32> }`.
The `namespace` field is called `ns` because `namespace` is a Lean keyword. -/
structure Interface where
  name : String
  ip : Option String
  ns : Option Namespace
  mtu : Option Nat
deriving DecidableEq, Repr

/-- `struct Route { dst: String, gateway: Vec<Arc<Interface>> }`. -/
structure Route where
  dst : String
  gateway : List Interface
deriving DecidableEq, Repr

/-- `struct Veth { name: String, peer: String }`. -/
structure Veth where
  name : String
  peer : String
deriving DecidableEq, Repr

/-- `struct Config`: three name-keyed maps.  The Rust `HashMap`s are modelled
as association lists; lookup finds the first matching key. -/
structure Config where
  namespaces : List (String × Namespace)
  links : List (String × Link)
  interfaces : List (String × Interface)
deriving DecidableEq, Repr

/-- First-match key lookup on an association list (model of `HashMap::get`). -/
def lookupKey {α : Type} (a : String) : List (String × α) → Option α
  | [] => none
  | (k, v) :: rest => if a = k then some v else lookupKey a rest

/-- Success oracle for external commands: given the argv passed to `ip`,
decides whether the OS reports success. -/
abbrev Exec := List String → Bool

/-- Trace of issued external commands (argv lists passed to `ip`). -/
abbrev Trace := List (List String)

/-- Oracle under which every external command succeeds. -/
def allSucceed : Exec := fun _ => true

/-! ### Decimal formatting and IPv4 / CIDR parsing

The source uses `u32::from_be_bytes(Ipv4Addr::octets)`, `Ipv4Addr::from`
(display) and `ipnet::IpNet::from_str`.  These are modelled over `List Char`
with structural recursion so terms evaluate inside the kernel. -/

/-- Decimal digits of `n`, accumulated most-significant first.  The first
argument is fuel (`n + 1` suffices). -/
def natToDigitsAux : Nat → Nat → List Char → List Char
  | 0, _, acc => acc
  | fuel + 1, n, acc =>
    let d := Char.ofNat (48 + n % 10)
    if n < 10 then d :: acc
    else natToDigitsAux fuel (n / 10) (d :: acc)

/-- Decimal representation of a natural number (model of Rust `to_string`). -/
def natToStr (n : Nat) : String :=
  ⟨natToDigitsAux (n + 1) n []⟩

/-- Split a character list at every occurrence of `sep`; models Rust
`str::split` with a single-character separator (`"".split` yields `[""]`). -/
def splitOnChar (sep : Char) : List Char → List (List Char)
  | [] => [[]]
  | c :: rest =>
    let r := splitOnChar sep rest
    if c = sep then [] :: r
    else
      match r with
      | h :: t => (c :: h) :: t
      | [] => [[c]]

/-- Parse an all-digit character list as a decimal number; `none` on the empty
list or any non-digit (model of Rust integer `from_str` on the accepted
strings used here). -/
def parseDecAux : List Char → Nat → Option Nat
  | [], acc => some acc
  | c :: rest, acc =>
    if c.isDigit then parseDecAux rest (acc * 10 + (c.toNat - 48)) else none

/-- Parse a non-empty digit string. -/
def parseDec : List Char → Option Nat
  | [] => none
  | cs => parseDecAux cs 0

/-- One dotted-quad octet: digits, value ≤ 255, no leading zero (as in
`Ipv4Addr::from_str`). -/
def parseOctet (cs : List Char) : Option Nat :=
  match parseDec cs with
  | none => none
  | some v =>
    if v ≤ 255 && (cs.length == 1 || cs.headD ' ' != '0') then some v else none

/-- Parse `a.b.c.d` into the 32-bit big-endian integer
(`u32::from_be_bytes(octets)` in the source). -/
def parseIpv4 (cs : List Char) : Option Nat :=
  match splitOnChar '.' cs with
  | [a, b, c, d] =>
    match parseOctet a, parseOctet b, parseOctet c, parseOctet d with
    | some x, some y, some z, some w => some (((x * 256 + y) * 256 + z) * 256 + w)
    | _, _, _, _ => none
  | _ => none

/-- Parse the prefix length: digits with value ≤ 32 (the `ipnet` crate parses
a `u8` and rejects lengths above 32 for IPv4). -/
def parsePlen (cs : List Char) : Option Nat :=
  match parseDec cs with
  | none => none
  | some v => if v ≤ 32 then some v else none

/-- Parse a CIDR string `addr/plen` into `(address as 32-bit integer, prefix length)`.
Models `self.subnet.parse::<ipnet::IpNet>()` followed by the re-parse of
`sn.addr()` as an `Ipv4Addr` (lines 50–53 of the source): the address part is
taken exactly as written — host bits are NOT zeroed — and IPv6 input fails. -/
def parseIpv4Cidr (s : String) : Option (Nat × Nat) :=
  match splitOnChar '/' s.data with
  | [a, p] =>
    match parseIpv4 a, parsePlen p with
    | some x, some pl => some (x, pl)
    | _, _ => none
  | _ => none

/-- Render a 32-bit integer as dotted-quad (model of `Ipv4Addr::from(n.to_be_bytes()).to_string()`). -/
def ipv4ToString (n : Nat) : String :=
  natToStr (n / 16777216 % 256) ++ "." ++ natToStr (n / 65536 % 256) ++ "."
    ++ natToStr (n / 256 % 256) ++ "." ++ natToStr (n % 256)

/-- First component of the split of `s` at `/` (model of
`ip.split("/").collect::<Vec<&str>>()[0]` in `add_route`). -/
def ipPart (s : String) : String :=
  match splitOnChar '/' s.data with
  | h :: _ => ⟨h⟩
  | [] => ""

/-! ### Command argv builders (literal argv lists from the source) -/

/-- `ip link add <name> type veth peer name <peer>` (`Veth::create`). -/
def vethCreateArgs (name peer : String) : List String :=
  ["link", "add", name, "type", "veth", "peer", "name", peer]

/-- `ip link set <dev> netns <ns>` (`Interface::attach`). -/
def moveToNsArgs (dev nsName : String) : List String :=
  ["link", "set", dev, "netns", nsName]

/-- Argv of `Interface::set_ip`: namespace-scoped or host form. -/
def setIpArgs (ns : Option String) (ipStr dev : String) : List String :=
  match ns with
  | some n => ["netns", "exec", n, "ip", "addr", "add", ipStr, "dev", dev]
  | none => ["addr", "add", ipStr, "dev", dev]

/-- Argv of `Interface::set_mtu`: namespace-scoped or host form. -/
def setMtuArgs (ns : Option String) (mtu : Nat) (dev : String) : List String :=
  match ns with
  | some n => ["netns", "exec", n, "ip", "link", "set", "dev", dev, "mtu", natToStr mtu]
  | none => ["link", "set", "dev", dev, "mtu", natToStr mtu]

/-- Argv of `Interface::set_up`: namespace-scoped or host form. -/
def setUpArgs (ns : Option String) (dev : String) : List String :=
  match ns with
  | some n => ["netns", "exec", n, "ip", "link", "set", "dev", dev, "up"]
  | none => ["link", "set", "dev", dev, "up"]

/-- `ip netns add <name>` (`Namespace::create`). -/
def nsAddArgs (n : String) : List String :=
  ["netns", "add", n]

/-- `ip netns exec <name> sysctl -w net.ipv4.ip_forward=1` (`Namespace::enable_routing`). -/
def enableRoutingArgs (n : String) : List String :=
  ["netns", "exec", n, "sysctl", "-w", "net.ipv4.ip_forward=1"]

/-- `ip netns exec <name> sysctl -w net.ipv4.fib_multipath_hash_policy=1` (`Namespace::enable_ecmp`). -/
def enableEcmpArgs (n : String) : List String :=
  ["netns", "exec", n, "sysctl", "-w", "net.ipv4.fib_multipath_hash_policy=1"]

/-- The namespace-entry wrapper: the namespace-scoped form of each dual-mode
command is `ip netns exec <ns> ip <host-form args>`. -/
def nsWrap (nsName : String) (args : List String) : List String :=
  ["netns", "exec", nsName, "ip"] ++ args

/-! ### Operations -/

/-- `Veth::create`: issue the veth-pair creation command, check its status. -/
def Veth.create (ex : Exec) (v : Veth) : Except Err Unit × Trace :=
  let args := vethCreateArgs v.name v.peer
  if ex args then (.ok (), [args]) else (.error (.commandFailure args), [args])

/-- `Interface::attach`: move the device into a namespace, check status. -/
def Interface.attach (ex : Exec) (i : Interface) (n : Namespace) :
    Except Err Unit × Trace :=
  let args := moveToNsArgs i.name n.name
  if ex args then (.ok (), [args]) else (.error (.commandFailure args), [args])

/-- `Interface::set_ip`: issue the (dual-mode) address-add command; on success
record the address on the interface. -/
def Interface.set_ip (ex : Exec) (i : Interface) (ipStr : String) :
    Except Err Interface × Trace :=
  let args := setIpArgs (i.ns.map Namespace.name) ipStr i.name
  if ex args then (.ok { i with ip := some ipStr }, [args])
  else (.error (.commandFailure args), [args])

/-- `Interface::set_mtu`: issue the (dual-mode) mtu command; on success record
the mtu on the interface. -/
def Interface.set_mtu (ex : Exec) (i : Interface) (mtu : Nat) :
    Except Err Interface × Trace :=
  let args := setMtuArgs (i.ns.map Namespace.name) mtu i.name
  if ex args then (.ok { i with mtu := some mtu }, [args])
  else (.error (.commandFailure args), [args])

/-- `Interface::set_up`: issue the (dual-mode) up command. -/
def Interface.set_up (ex : Exec) (i : Interface) :
    Except Err Interface × Trace :=
  let args := setUpArgs (i.ns.map Namespace.name) i.name
  if ex args then (.ok i, [args]) else (.error (.commandFailure args), [args])

/-- `Interface::new`: uniqueness check first (no command on conflict), then in
order: move into namespace (if given), set address (if given), set mtu (if
given), set up (always); the interface is registered only when every step
succeeded.  On failure the already-issued commands remain in the trace and the
registry is unchanged. -/
def Interface.new (ex : Exec) (name : String) (ns : Option Namespace)
    (ip : Option String) (mtu : Option Nat) (cfg : Config) :
    Except Err Interface × Config × Trace :=
  match lookupKey name cfg.interfaces with
  | some r => (.error (.nameConflict "Interface" r.name), cfg, [])
  | none =>
    let i0 : Interface := { name := name, ip := ip, ns := ns, mtu := mtu }
    let s1 : Except Err Interface × Trace :=
      match ns with
      | some n =>
        match Interface.attach ex i0 n with
        | (.ok _, t) => (.ok i0, t)
        | (.error e, t) => (.error e, t)
      | none => (.ok i0, [])
    match s1 with
    | (.error e, t1) => (.error e, cfg, t1)
    | (.ok i1, t1) =>
      let s2 : Except Err Interface × Trace :=
        match ip with
        | some v => Interface.set_ip ex i1 v
        | none => (.ok i1, [])
      match s2 with
      | (.error e, t2) => (.error e, cfg, t1 ++ t2)
      | (.ok i2, t2) =>
        let s3 : Except Err Interface × Trace :=
          match mtu with
          | some m => Interface.set_mtu ex i2 m
          | none => (.ok i2, [])
        match s3 with
        | (.error e, t3) => (.error e, cfg, t1 ++ t2 ++ t3)
        | (.ok i3, t3) =>
          match Interface.set_up ex i3 with
          | (.error e, t4) => (.error e, cfg, t1 ++ t2 ++ t3 ++ t4)
          | (.ok i4, t4) =>
            (.ok i4, { cfg with interfaces := (name, i4) :: cfg.interfaces },
              t1 ++ t2 ++ t3 ++ t4)

/-- `Namespace::create`: issue `ip netns add`, check status. -/
def Namespace.create (ex : Exec) (n : Namespace) : Except Err Unit × Trace :=
  let args := nsAddArgs n.name
  if ex args then (.ok (), [args]) else (.error (.commandFailure args), [args])

/-- `Namespace::enable_routing`. -/
def Namespace.enable_routing (ex : Exec) (n : Namespace) : Except Err Unit × Trace :=
  let args := enableRoutingArgs n.name
  if ex args then (.ok (), [args]) else (.error (.commandFailure args), [args])

/-- `Namespace::enable_ecmp`. -/
def Namespace.enable_ecmp (ex : Exec) (n : Namespace) : Except Err Unit × Trace :=
  let args := enableEcmpArgs n.name
  if ex args then (.ok (), [args]) else (.error (.commandFailure args), [args])

/-- `Namespace::new`: uniqueness check (no command on conflict), create the
namespace, enable forwarding, enable ECMP hashing when `ecmp` is set, then
register.  The `ecmp` argument is not stored on the record. -/
def Namespace.new (ex : Exec) (name : String) (ecmp : Bool) (cfg : Config) :
    Except Err Namespace × Config × Trace :=
  match lookupKey name cfg.namespaces with
  | some r => (.error (.nameConflict "Namespace" r.name), cfg, [])
  | none =>
    let n : Namespace := ⟨name⟩
    match Namespace.create ex n with
    | (.error e, t1) => (.error e, cfg, t1)
    | (.ok _, t1) =>
      match Namespace.enable_routing ex n with
      | (.error e, t2) => (.error e, cfg, t1 ++ t2)
      | (.ok _, t2) =>
        let s3 : Except Err Unit × Trace :=
          if ecmp then Namespace.enable_ecmp ex n else (.ok (), [])
        match s3 with
        | (.error e, t3) => (.error e, cfg, t1 ++ t2 ++ t3)
        | (.ok _, t3) =>
          (.ok n, { cfg with namespaces := (name, n) :: cfg.namespaces },
            t1 ++ t2 ++ t3)

/-- `Link::new`: uniqueness check only, no external command, no validation of
the subnet string. -/
def Link.new (name subnet : String) (cfg : Config) :
    Except Err Link × Config × Trace :=
  match lookupKey name cfg.links with
  | some r => (.error (.nameConflict "RouterLink" r.name), cfg, [])
  | none =>
    let l : Link := ⟨name, subnet⟩
    (.ok l, { cfg with links := (name, l) :: cfg.links }, [])

/-- `Link::attach`: derive the two device names `<ns>_<link>`, create the veth
pair, parse the subnet, derive host addresses `addr+1` and `addr+2` (32-bit
wrapping), construct and register the two interfaces in `(ns1, ns2)` order. -/
def Link.attach (ex : Exec) (l : Link) (ns1 ns2 : Namespace) (cfg : Config) :
    Except Err (Interface × Interface) × Config × Trace :=
  let name1 := ns1.name ++ "_" ++ l.name
  let name2 := ns2.name ++ "_" ++ l.name
  let veth : Veth := ⟨name1, name2⟩
  match Veth.create ex veth with
  | (.error e, t0) => (.error e, cfg, t0)
  | (.ok _, t0) =>
    match parseIpv4Cidr l.subnet with
    | none => (.error .addrParseFailure, cfg, t0)
    | some (base, pl) =>
      let ip1 := ipv4ToString ((base + 1) % 4294967296) ++ "/" ++ natToStr pl
      let ip2 := ipv4ToString ((base + 2) % 4294967296) ++ "/" ++ natToStr pl
      match Interface.new ex name1 (some ns1) (some ip1) (some 3000) cfg with
      | (.error e, cfg1, t1) => (.error e, cfg1, t0 ++ t1)
      | (.ok i1, cfg1, t1) =>
        match Interface.new ex name2 (some ns2) (some ip2) (some 3000) cfg1 with
        | (.error e, cfg2, t2) => (.error e, cfg2, t0 ++ t1 ++ t2)
        | (.ok i2, cfg2, t2) => (.ok (i1, i2), cfg2, t0 ++ t1 ++ t2)

/-- Gateway clause construction of `Namespace::add_route`: for each gateway in
order, require an assigned address (first missing one aborts with
`missingAddress`), emit `nexthop via <addr-without-plen>`, and append
`weight 1` when `multi` (the gateway list has more than one entry). -/
def routeNexthops (multi : Bool) : List Interface → Except Err (List String)
  | [] => .ok []
  | i :: rest =>
    match i.ip with
    | none => .error (.missingAddress i.name)
    | some ipStr =>
      match routeNexthops multi rest with
      | .error e => .error e
      | .ok tail =>
        .ok ((["nexthop", "via", ipPart ipStr]
          ++ (if multi then ["weight", "1"] else [])) ++ tail)

/-- `Namespace::add_route`: build the route-add argv; any gateway without an
address aborts before the command is issued; otherwise the command is issued
and its success/failure status is NOT inspected (the source calls `.output()?`
and ignores `status`). -/
def Namespace.add_route (ex : Exec) (ns : Namespace) (r : Route) :
    Except Err Unit × Trace :=
  match routeNexthops (decide (1 < r.gateway.length)) r.gateway with
  | .error e => (.error e, [])
  | .ok nh =>
    let args := ["netns", "exec", ns.name, "ip", "route", "add", r.dst] ++ nh
    (.ok (), [args])

/-! ### Result projections and registry well-formedness -/

/-- Result component of a constructor outcome. -/
def res3 {α : Type} (x : Except Err α × Config × Trace) : Except Err α := x.1

/-- Registry component of a constructor outcome. -/
def cfg3 {α : Type} (x : Except Err α × Config × Trace) : Config := x.2.1

/-- Trace component of a constructor outcome. -/
def tr3 {α : Type} (x : Except Err α × Config × Trace) : Trace := x.2.2

/-- Keys of an association list. -/
def keysOf {α : Type} (l : List (String × α)) : List String := l.map Prod.fst

/-- Registry invariant: within each entity kind, no two entries share a name. -/
def Config.wf (cfg : Config) : Prop :=
  (keysOf cfg.namespaces).Nodup ∧ (keysOf cfg.links).Nodup ∧
    (keysOf cfg.interfaces).Nodup

instance (cfg : Config) : Decidable cfg.wf := by
  unfold Config.wf; infer_instance

/-- Network base address of spec §4.4: the claim's reading of "base address
b": the CIDR's host bits zeroed.  Modelled from the spec's words ("the network
base address"), for comparison with the source's derivation, which uses the
address exactly as written. -/
def specNetworkBase (b pl : Nat) : Nat :=
  b / 2 ^ (32 - pl) * 2 ^ (32 - pl)

/-- Device name derived in `Link::attach`: `format!("{}_{}", ns.name, link.name)`. -/
def devName (ns : Namespace) (l : Link) : String :=
  ns.name ++ "_" ++ l.name

/-- Host address string derived in `Link::attach` for offset `k` (1 for the
`ns1` side, 2 for the `ns2` side): 32-bit wrapping addition, then dotted-quad
plus the prefix length. -/
def hostAddr (b pl k : Nat) : String :=
  ipv4ToString ((b + k) % 4294967296) ++ "/" ++ natToStr pl

/-! ### Helper lemmas -/

theorem lookupKey_eq_none {α : Type} (a : String) (l : List (String × α)) :
    lookupKey a l = none ↔ a ∉ keysOf l := by
  induction l with
  | nil => simp [lookupKey, keysOf]
  | cons x xs ih =>
    obtain ⟨k, v⟩ := x
    by_cases h : a = k
    · subst h; simp [lookupKey, keysOf]
    · simp [lookupKey, keysOf, h] at ih ⊢
      exact ih

theorem interface_new_dup (ex : Exec) (name : String) (ns : Option Namespace)
    (ip : Option String) (mtu : Option Nat) (cfg : Config) (r : Interface)
    (h : lookupKey name cfg.interfaces = some r) :
    Interface.new ex name ns ip mtu cfg =
      (.error (.nameConflict "Interface" r.name), cfg, []) := by
  simp [Interface.new, h]

theorem interface_new_all (ex : Exec) (hx : ∀ a, ex a = true) (name : String)
    (n : Namespace) (v : String) (m : Nat) (cfg : Config)
    (h : lookupKey name cfg.interfaces = none) :
    Interface.new ex name (some n) (some v) (some m) cfg =
      (.ok ⟨name, some v, some n, some m⟩,
       { cfg with interfaces := (name, ⟨name, some v, some n, some m⟩) :: cfg.interfaces },
       [moveToNsArgs name n.name, setIpArgs (some n.name) v name,
        setMtuArgs (some n.name) m name, setUpArgs (some n.name) name]) := by
  simp [Interface.new, h, Interface.attach, Interface.set_ip, Interface.set_mtu,
    Interface.set_up, hx]

theorem interface_new_spec (ex : Exec) (name : String) (ns : Option Namespace)
    (ip : Option String) (mtu : Option Nat) (cfg : Config) :
    (∃ r, lookupKey name cfg.interfaces = some r ∧
       Interface.new ex name ns ip mtu cfg =
         (.error (.nameConflict "Interface" r.name), cfg, []))
    ∨ (lookupKey name cfg.interfaces = none ∧
        ((∃ e t, Interface.new ex name ns ip mtu cfg = (.error e, cfg, t))
         ∨ (∃ i t, Interface.new ex name ns ip mtu cfg =
             (.ok i,
              { cfg with interfaces := (name, i) :: cfg.interfaces },
              t)))) := by
  cases hl : lookupKey name cfg.interfaces with
  | some r => exact Or.inl ⟨r, rfl, by simp [Interface.new, hl]⟩
  | none =>
    refine Or.inr ⟨rfl, ?_⟩
    cases ns <;> cases ip <;> cases mtu <;>
      simp only [Interface.new, hl, Interface.attach, Interface.set_ip,
        Interface.set_mtu, Interface.set_up, Option.map_some', Option.map_none'] <;>
      repeat' split
    all_goals
      first
        | exact Or.inl ⟨_, _, rfl⟩
        | exact Or.inr ⟨_, _, rfl⟩

theorem namespace_new_spec (ex : Exec) (name : String) (ecmp : Bool) (cfg : Config) :
    (∃ r, lookupKey name cfg.namespaces = some r ∧
       Namespace.new ex name ecmp cfg =
         (.error (.nameConflict "Namespace" r.name), cfg, []))
    ∨ (lookupKey name cfg.namespaces = none ∧
        ((∃ e t, Namespace.new ex name ecmp cfg = (.error e, cfg, t))
         ∨ (∃ t, Namespace.new ex name ecmp cfg =
             (.ok ⟨name⟩,
              { cfg with namespaces := (name, ⟨name⟩) :: cfg.namespaces }, t)))) := by
  cases hl : lookupKey name cfg.namespaces with
  | some r => exact Or.inl ⟨r, rfl, by simp [Namespace.new, hl]⟩
  | none =>
    refine Or.inr ⟨rfl, ?_⟩
    cases ecmp <;>
      simp only [Namespace.new, hl, Namespace.create, Namespace.enable_routing,
        Namespace.enable_ecmp, if_true, if_false, Bool.false_eq_true] <;>
      repeat' split
    all_goals
      first
        | exact Or.inl ⟨_, _, rfl⟩
        | exact Or.inr ⟨_, rfl⟩

theorem link_new_spec (name subnet : String) (cfg : Config) :
    (∃ r, lookupKey name cfg.links = some r ∧
       Link.new name subnet cfg =
         (.error (.nameConflict "RouterLink" r.name), cfg, []))
    ∨ (lookupKey name cfg.links = none ∧
        Link.new name subnet cfg =
          (.ok ⟨name, subnet⟩,
           { cfg with links := (name, ⟨name, subnet⟩) :: cfg.links }, [])) := by
  cases hl : lookupKey name cfg.links with
  | some r => exact Or.inl ⟨r, rfl, by simp [Link.new, hl]⟩
  | none => exact Or.inr ⟨rfl, by simp [Link.new, hl]⟩

theorem wf_insert_interfaces (cfg : Config) (name : String) (i : Interface)
    (hwf : cfg.wf) (h : lookupKey name cfg.interfaces = none) :
    ({ cfg with interfaces := (name, i) :: cfg.interfaces } : Config).wf := by
  obtain ⟨w1, w2, w3⟩ := hwf
  have hn : name ∉ keysOf cfg.interfaces := (lookupKey_eq_none name _).mp h
  exact ⟨w1, w2, List.nodup_cons.mpr ⟨hn, w3⟩⟩

theorem wf_insert_namespaces (cfg : Config) (name : String) (n : Namespace)
    (hwf : cfg.wf) (h : lookupKey name cfg.namespaces = none) :
    ({ cfg with namespaces := (name, n) :: cfg.namespaces } : Config).wf := by
  obtain ⟨w1, w2, w3⟩ := hwf
  have hn : name ∉ keysOf cfg.namespaces := (lookupKey_eq_none name _).mp h
  exact ⟨List.nodup_cons.mpr ⟨hn, w1⟩, w2, w3⟩

theorem wf_insert_links (cfg : Config) (name : String) (l : Link)
    (hwf : cfg.wf) (h : lookupKey name cfg.links = none) :
    ({ cfg with links := (name, l) :: cfg.links } : Config).wf := by
  obtain ⟨w1, w2, w3⟩ := hwf
  have hn : name ∉ keysOf cfg.links := (lookupKey_eq_none name _).mp h
  exact ⟨w1, List.nodup_cons.mpr ⟨hn, w2⟩, w3⟩

theorem interface_new_wf (ex : Exec) (name : String) (ns : Option Namespace)
    (ip : Option String) (mtu : Option Nat) (cfg : Config) (hwf : cfg.wf) :
    (cfg3 (Interface.new ex name ns ip mtu cfg)).wf := by
  rcases interface_new_spec ex name ns ip mtu cfg with
      ⟨r, _, hEq⟩ | ⟨hl, ⟨e, t, hEq⟩ | ⟨i, t, hEq⟩⟩
  · rw [hEq]; exact hwf
  · rw [hEq]; exact hwf
  · rw [hEq]; exact wf_insert_interfaces cfg name i hwf hl

theorem namespace_new_wf (ex : Exec) (name : String) (ecmp : Bool)
    (cfg : Config) (hwf : cfg.wf) :
    (cfg3 (Namespace.new ex name ecmp cfg)).wf := by
  rcases namespace_new_spec ex name ecmp cfg with
      ⟨r, _, hEq⟩ | ⟨hl, ⟨e, t, hEq⟩ | ⟨t, hEq⟩⟩
  · rw [hEq]; exact hwf
  · rw [hEq]; exact hwf
  · rw [hEq]; exact wf_insert_namespaces cfg name ⟨name⟩ hwf hl

theorem link_new_wf (name subnet : String) (cfg : Config) (hwf : cfg.wf) :
    (cfg3 (Link.new name subnet cfg)).wf := by
  rcases link_new_spec name subnet cfg with ⟨r, _, hEq⟩ | ⟨hl, hEq⟩
  · rw [hEq]; exact hwf
  · rw [hEq]; exact wf_insert_links cfg name ⟨name, subnet⟩ hwf hl

theorem link_attach_wf (ex : Exec) (l : Link) (ns1 ns2 : Namespace)
    (cfg : Config) (hwf : cfg.wf) :
    (cfg3 (Link.attach ex l ns1 ns2 cfg)).wf := by
  rcases hV : Veth.create ex ⟨ns1.name ++ "_" ++ l.name, ns2.name ++ "_" ++ l.name⟩
    with ⟨rv, tv⟩
  cases rv with
  | error e =>
    simp only [Link.attach, cfg3, hV]
    exact hwf
  | ok u =>
    cases hp : parseIpv4Cidr l.subnet with
    | none =>
      simp only [Link.attach, cfg3, hV, hp]
      exact hwf
    | some bp =>
      obtain ⟨b, pl⟩ := bp
      rcases hI1 : Interface.new ex (ns1.name ++ "_" ++ l.name) (some ns1)
          (some (ipv4ToString ((b + 1) % 4294967296) ++ "/" ++ natToStr pl))
          (some 3000) cfg with ⟨r1, cfg1, t1⟩
      have w1 : cfg1.wf := by
        have hh := interface_new_wf ex (ns1.name ++ "_" ++ l.name) (some ns1)
          (some (ipv4ToString ((b + 1) % 4294967296) ++ "/" ++ natToStr pl))
          (some 3000) cfg hwf
        rw [hI1] at hh
        exact hh
      cases r1 with
      | error e =>
        simp only [Link.attach, cfg3, hV, hp, hI1]
        exact w1
      | ok i1 =>
        rcases hI2 : Interface.new ex (ns2.name ++ "_" ++ l.name) (some ns2)
            (some (ipv4ToString ((b + 2) % 4294967296) ++ "/" ++ natToStr pl))
            (some 3000) cfg1 with ⟨r2, cfg2, t2⟩
        have w2 : cfg2.wf := by
          have hh := interface_new_wf ex (ns2.name ++ "_" ++ l.name) (some ns2)
            (some (ipv4ToString ((b + 2) % 4294967296) ++ "/" ++ natToStr pl))
            (some 3000) cfg1 w1
          rw [hI2] at hh
          exact hh
        cases r2 with
        | error e =>
          simp only [Link.attach, cfg3, hV, hp, hI1, hI2]
          exact w2
        | ok i2 =>
          simp only [Link.attach, cfg3, hV, hp, hI1, hI2]
          exact w2

theorem attach_ok (ex : Exec) (hx : ∀ a, ex a = true) (l : Link)
    (ns1 ns2 : Namespace) (cfg : Config) (b pl : Nat)
    (hp : parseIpv4Cidr l.subnet = some (b, pl))
    (h1 : lookupKey (devName ns1 l) cfg.interfaces = none)
    (h2 : lookupKey (devName ns2 l) cfg.interfaces = none)
    (hne : devName ns2 l ≠ devName ns1 l) :
    Link.attach ex l ns1 ns2 cfg =
      (.ok (⟨devName ns1 l, some (hostAddr b pl 1), some ns1, some 3000⟩,
            ⟨devName ns2 l, some (hostAddr b pl 2), some ns2, some 3000⟩),
       { cfg with interfaces :=
           (devName ns2 l,
             ⟨devName ns2 l, some (hostAddr b pl 2), some ns2, some 3000⟩) ::
           (devName ns1 l,
             ⟨devName ns1 l, some (hostAddr b pl 1), some ns1, some 3000⟩) ::
           cfg.interfaces },
       [vethCreateArgs (devName ns1 l) (devName ns2 l),
        moveToNsArgs (devName ns1 l) ns1.name,
        setIpArgs (some ns1.name) (hostAddr b pl 1) (devName ns1 l),
        setMtuArgs (some ns1.name) 3000 (devName ns1 l),
        setUpArgs (some ns1.name) (devName ns1 l),
        moveToNsArgs (devName ns2 l) ns2.name,
        setIpArgs (some ns2.name) (hostAddr b pl 2) (devName ns2 l),
        setMtuArgs (some ns2.name) 3000 (devName ns2 l),
        setUpArgs (some ns2.name) (devName ns2 l)]) := by
  have hI1 := interface_new_all ex hx (devName ns1 l) ns1 (hostAddr b pl 1) 3000 cfg h1
  have h2' : lookupKey (devName ns2 l)
      (({ cfg with interfaces :=
          (devName ns1 l,
            ⟨devName ns1 l, some (hostAddr b pl 1), some ns1, some 3000⟩) ::
          cfg.interfaces } : Config)).interfaces = none := by
    simp [lookupKey, hne, h2]
  have hI2 := interface_new_all ex hx (devName ns2 l) ns2 (hostAddr b pl 2) 3000
    _ h2'
  simp only [devName, hostAddr] at hI1 hI2 ⊢
  simp [Link.attach, Veth.create, hx, hp, hI1, hI2]

theorem routeNexthops_ok (multi : Bool) (L : List Interface)
    (h : ∀ g ∈ L, g.ip ≠ none) :
    routeNexthops multi L =
      .ok (L.map fun g => ["nexthop", "via", ipPart (g.ip.getD "")]
        ++ (if multi then ["weight", "1"] else [])).flatten := by
  induction L with
  | nil => simp [routeNexthops]
  | cons i rest ih =>
    have hi := h i (by simp)
    cases hip : i.ip with
    | none => exact absurd hip hi
    | some v =>
      have := ih (fun g hg => h g (by simp [hg]))
      simp [routeNexthops, hip, this]

theorem routeNexthops_ok_all (multi : Bool) (L : List Interface) :
    ∀ nh, routeNexthops multi L = .ok nh → ∀ g ∈ L, g.ip ≠ none := by
  induction L with
  | nil => intro nh _ g hg; cases hg
  | cons i rest ih =>
    intro nh h g hg
    cases hii : i.ip with
    | none => simp [routeNexthops, hii] at h
    | some v =>
      simp only [routeNexthops, hii] at h
      cases hrest : routeNexthops multi rest with
      | error e => simp [hrest] at h
      | ok tail =>
        rcases List.mem_cons.mp hg with rfl | hgr
        · simp [hii]
        · exact ih tail hrest g hgr

theorem routeNexthops_isOk (multi : Bool) (L : List Interface) :
    (∃ nh, routeNexthops multi L = .ok nh) ↔ ∀ g ∈ L, g.ip ≠ none := by
  constructor
  · rintro ⟨nh, hnh⟩
    exact routeNexthops_ok_all multi L nh hnh
  · intro h
    exact ⟨_, routeNexthops_ok multi L h⟩

theorem routeNexthops_error_char (multi : Bool) (L : List Interface) :
    ∀ e, routeNexthops multi L = .error e →
      ∃ g, g ∈ L ∧ g.ip = none ∧ e = .missingAddress g.name := by
  induction L with
  | nil => intro e h; simp [routeNexthops] at h
  | cons i rest ih =>
    intro e h
    cases hii : i.ip with
    | none =>
      simp only [routeNexthops, hii] at h
      cases h
      exact ⟨i, by simp, hii, rfl⟩
    | some v =>
      simp only [routeNexthops, hii] at h
      cases hrest : routeNexthops multi rest with
      | error e2 =>
        simp only [hrest] at h
        cases h
        obtain ⟨g, hg, hgip, hge⟩ := ih _ hrest
        exact ⟨g, by simp [hg], hgip, hge⟩
      | ok tail => simp [hrest] at h

/-! ### Claim theorems -/

/-- C1, counterexample: the claim reads the derivation as network-base + 1 /
network-base + 2, but `Link::attach` adds to the address exactly as written in
the subnet string.  For subnet `10.0.0.5/24` the network base is `10.0.0.0`,
so the claim predicts `10.0.0.1/24` and `10.0.0.2/24`, while the code derives
`10.0.0.6/24` and `10.0.0.7/24`. -/
theorem C1_base_address_cex :
    parseIpv4Cidr "10.0.0.5/24" = some (167772165, 24) ∧
    specNetworkBase 167772165 24 = 167772160 ∧
    ipv4ToString (specNetworkBase 167772165 24 + 1) ++ "/" ++ natToStr 24 = "10.0.0.1/24" ∧
    ipv4ToString (specNetworkBase 167772165 24 + 2) ++ "/" ++ natToStr 24 = "10.0.0.2/24" ∧
    res3 (Link.attach allSucceed ⟨"link1", "10.0.0.5/24"⟩ ⟨"r1"⟩ ⟨"r2"⟩ ⟨[], [], []⟩) =
      .ok (⟨"r1_link1", some "10.0.0.6/24", some ⟨"r1"⟩, some 3000⟩,
           ⟨"r2_link1", some "10.0.0.7/24", some ⟨"r2"⟩, some 3000⟩) ∧
    ("10.0.0.6/24" : String) ≠ "10.0.0.1/24" ∧
    ("10.0.0.7/24" : String) ≠ "10.0.0.2/24" := by
  decide

/-- C1 (amended): for every `Link.attach` whose subnet parses as an IPv4 CIDR
with written address `b` and prefix length `p` (host bits are not zeroed), the
two Interfaces are created with addresses `(b+1)/p` and `(b+2)/p`, returned in
input order `(nsA, nsB)`; for a canonical subnet such as `10.0.0.0/24` the
written address equals the network base, giving `10.0.0.1/24` and
`10.0.0.2/24`. -/
theorem C1_attach_addresses (ex : Exec) (l : Link) (ns1 ns2 : Namespace)
    (cfg : Config) (b pl : Nat) (hx : ∀ a, ex a = true)
    (hp : parseIpv4Cidr l.subnet = some (b, pl))
    (h1 : lookupKey (devName ns1 l) cfg.interfaces = none)
    (h2 : lookupKey (devName ns2 l) cfg.interfaces = none)
    (hne : devName ns2 l ≠ devName ns1 l) :
    res3 (Link.attach ex l ns1 ns2 cfg) =
      .ok (⟨devName ns1 l, some (hostAddr b pl 1), some ns1, some 3000⟩,
           ⟨devName ns2 l, some (hostAddr b pl 2), some ns2, some 3000⟩) := by
  simp only [res3, attach_ok ex hx l ns1 ns2 cfg b pl hp h1 h2 hne]

theorem C1_attach_addresses_witness :
    (∀ a : List String, allSucceed a = true) ∧
    parseIpv4Cidr "10.0.0.0/24" = some (167772160, 24) ∧
    res3 (Link.attach allSucceed ⟨"link1", "10.0.0.0/24"⟩ ⟨"r1"⟩ ⟨"r2"⟩ ⟨[], [], []⟩) =
      .ok (⟨"r1_link1", some "10.0.0.1/24", some ⟨"r1"⟩, some 3000⟩,
           ⟨"r2_link1", some "10.0.0.2/24", some ⟨"r2"⟩, some 3000⟩) := by
  refine ⟨fun _ => rfl, by decide, ?_⟩
  have h := C1_attach_addresses allSucceed ⟨"link1", "10.0.0.0/24"⟩ ⟨"r1"⟩ ⟨"r2"⟩
    ⟨[], [], []⟩ 167772160 24 (fun _ => rfl) (by decide) (by decide) (by decide)
    (by decide)
  rw [h]
  decide

/-- C9: the host-address derivation has no check that the prefix length leaves
room for two host addresses — any parsed prefix length, `/31` and `/32`
included, is processed by the same unchecked formula — and the addition is
32-bit wrapping: the derived addresses are `(b+1) mod 2^32` and
`(b+2) mod 2^32`, which wrap around for base addresses `255.255.255.254` and
`255.255.255.255`. -/
theorem C9_unchecked_increment (ex : Exec) (l : Link) (ns1 ns2 : Namespace)
    (cfg : Config) (b pl : Nat) (hx : ∀ a, ex a = true)
    (hp : parseIpv4Cidr l.subnet = some (b, pl))
    (h1 : lookupKey (devName ns1 l) cfg.interfaces = none)
    (h2 : lookupKey (devName ns2 l) cfg.interfaces = none)
    (hne : devName ns2 l ≠ devName ns1 l) :
    res3 (Link.attach ex l ns1 ns2 cfg) =
      .ok (⟨devName ns1 l, some (ipv4ToString ((b + 1) % 2 ^ 32) ++ "/" ++ natToStr pl),
            some ns1, some 3000⟩,
           ⟨devName ns2 l, some (ipv4ToString ((b + 2) % 2 ^ 32) ++ "/" ++ natToStr pl),
            some ns2, some 3000⟩) ∧
    parseIpv4Cidr "255.255.255.254/31" = some (4294967294, 31) ∧
    parseIpv4Cidr "255.255.255.255/32" = some (4294967295, 32) ∧
    res3 (Link.attach allSucceed ⟨"l", "255.255.255.254/31"⟩ ⟨"a"⟩ ⟨"b"⟩ ⟨[], [], []⟩) =
      .ok (⟨"a_l", some "255.255.255.255/31", some ⟨"a"⟩, some 3000⟩,
           ⟨"b_l", some "0.0.0.0/31", some ⟨"b"⟩, some 3000⟩) ∧
    res3 (Link.attach allSucceed ⟨"l", "255.255.255.255/32"⟩ ⟨"a"⟩ ⟨"b"⟩ ⟨[], [], []⟩) =
      .ok (⟨"a_l", some "0.0.0.0/32", some ⟨"a"⟩, some 3000⟩,
           ⟨"b_l", some "0.0.0.1/32", some ⟨"b"⟩, some 3000⟩) := by
  refine ⟨?_, by decide, by decide, by decide, by decide⟩
  have h := attach_ok ex hx l ns1 ns2 cfg b pl hp h1 h2 hne
  simp only [res3, h, hostAddr]
  norm_num

theorem C9_unchecked_increment_witness :
    (∀ a : List String, allSucceed a = true) ∧
    parseIpv4Cidr "10.9.9.8/32" = some (168364296, 32) ∧
    res3 (Link.attach allSucceed ⟨"lk", "10.9.9.8/32"⟩ ⟨"x"⟩ ⟨"y"⟩ ⟨[], [], []⟩) =
      .ok (⟨"x_lk", some (ipv4ToString ((168364296 + 1) % 2 ^ 32) ++ "/" ++ natToStr 32),
            some ⟨"x"⟩, some 3000⟩,
           ⟨"y_lk", some (ipv4ToString ((168364296 + 2) % 2 ^ 32) ++ "/" ++ natToStr 32),
            some ⟨"y"⟩, some 3000⟩) := by
  refine ⟨fun _ => rfl, by decide, ?_⟩
  have h := C9_unchecked_increment allSucceed ⟨"lk", "10.9.9.8/32"⟩ ⟨"x"⟩ ⟨"y"⟩
    ⟨[], [], []⟩ 168364296 32 (fun _ => rfl) (by decide) (by decide) (by decide)
    (by decide)
  exact h.1

/-- C8: `Link::new` performs only the registry uniqueness check and issues no
external command, succeeding for any subnet string; a malformed subnet fails
only at `attach`, with the address-parse error, and only after the veth-create
command has already been issued (the registry is unchanged and no rollback
command is issued). -/
theorem C8_lazy_subnet_validation :
    (∀ (name subnet : String) (cfg : Config), lookupKey name cfg.links = none →
      Link.new name subnet cfg =
        (.ok ⟨name, subnet⟩,
         { cfg with links := (name, ⟨name, subnet⟩) :: cfg.links }, [])) ∧
    (∀ (ex : Exec) (l : Link) (ns1 ns2 : Namespace) (cfg : Config),
      parseIpv4Cidr l.subnet = none → (∀ a, ex a = true) →
      Link.attach ex l ns1 ns2 cfg =
        (.error .addrParseFailure, cfg,
         [vethCreateArgs (devName ns1 l) (devName ns2 l)])) := by
  constructor
  · intro name subnet cfg h
    simp [Link.new, h]
  · intro ex l ns1 ns2 cfg hp hx
    simp [Link.attach, Veth.create, hx, hp, devName, vethCreateArgs]

theorem C8_lazy_subnet_validation_witness :
    lookupKey "l1" (Config.links ⟨[], [], []⟩) = none ∧
    Link.new "l1" "not-a-cidr" ⟨[], [], []⟩ =
      (.ok ⟨"l1", "not-a-cidr"⟩, ⟨[], [("l1", ⟨"l1", "not-a-cidr"⟩)], []⟩, []) ∧
    parseIpv4Cidr "not-a-cidr" = none ∧
    Link.attach allSucceed ⟨"l1", "not-a-cidr"⟩ ⟨"r1"⟩ ⟨"r2"⟩ ⟨[], [], []⟩ =
      (.error .addrParseFailure, ⟨[], [], []⟩, [vethCreateArgs "r1_l1" "r2_l1"]) := by
  refine ⟨by decide, ?_, by decide, ?_⟩
  · have h := C8_lazy_subnet_validation.1 "l1" "not-a-cidr" ⟨[], [], []⟩ (by decide)
    rw [h]
  · have h := C8_lazy_subnet_validation.2 allSucceed ⟨"l1", "not-a-cidr"⟩ ⟨"r1"⟩ ⟨"r2"⟩
      ⟨[], [], []⟩ (by decide) (fun _ => rfl)
    rw [h]
    decide

/-- C5: invoking `Link.attach` twice for the same Link and namespace pair
regenerates the same two device names (the second call re-issues the veth
command on exactly the same names), and the second invocation fails with a
NameConflict when the first device name is registered a second time; nothing
after the veth command of the second call is issued. -/
theorem C5_attach_twice (ex : Exec) (l : Link) (ns1 ns2 : Namespace) (cfg : Config)
    (b pl : Nat) (hx : ∀ a, ex a = true)
    (hp : parseIpv4Cidr l.subnet = some (b, pl))
    (h1 : lookupKey (devName ns1 l) cfg.interfaces = none)
    (h2 : lookupKey (devName ns2 l) cfg.interfaces = none)
    (hne : devName ns2 l ≠ devName ns1 l) :
    (∃ p, res3 (Link.attach ex l ns1 ns2 cfg) = .ok p) ∧
    res3 (Link.attach ex l ns1 ns2 (cfg3 (Link.attach ex l ns1 ns2 cfg))) =
      .error (.nameConflict "Interface" (devName ns1 l)) ∧
    tr3 (Link.attach ex l ns1 ns2 (cfg3 (Link.attach ex l ns1 ns2 cfg))) =
      [vethCreateArgs (devName ns1 l) (devName ns2 l)] ∧
    (tr3 (Link.attach ex l ns1 ns2 cfg)).headD [] =
      vethCreateArgs (devName ns1 l) (devName ns2 l) := by
  have hA := attach_ok ex hx l ns1 ns2 cfg b pl hp h1 h2 hne
  have hne' : devName ns1 l ≠ devName ns2 l := Ne.symm hne
  simp only [devName, hostAddr] at hA hne' ⊢
  have hSecond : Link.attach ex l ns1 ns2 (cfg3 (Link.attach ex l ns1 ns2 cfg)) =
      (.error (.nameConflict "Interface" (ns1.name ++ "_" ++ l.name)),
       cfg3 (Link.attach ex l ns1 ns2 cfg),
       [vethCreateArgs (ns1.name ++ "_" ++ l.name) (ns2.name ++ "_" ++ l.name)]) := by
    simp only [cfg3, hA]
    have hdup : lookupKey (ns1.name ++ "_" ++ l.name)
        (({ cfg with interfaces :=
            (ns2.name ++ "_" ++ l.name,
              ⟨ns2.name ++ "_" ++ l.name,
               some (ipv4ToString ((b + 2) % 4294967296) ++ "/" ++ natToStr pl),
               some ns2, some 3000⟩) ::
            (ns1.name ++ "_" ++ l.name,
              ⟨ns1.name ++ "_" ++ l.name,
               some (ipv4ToString ((b + 1) % 4294967296) ++ "/" ++ natToStr pl),
               some ns1, some 3000⟩) ::
            cfg.interfaces } : Config)).interfaces =
        some ⟨ns1.name ++ "_" ++ l.name,
              some (ipv4ToString ((b + 1) % 4294967296) ++ "/" ++ natToStr pl),
              some ns1, some 3000⟩ := by
      simp [lookupKey, hne']
    have hD := interface_new_dup ex (ns1.name ++ "_" ++ l.name) (some ns1)
      (some (ipv4ToString ((b + 1) % 4294967296) ++ "/" ++ natToStr pl)) (some 3000)
      ({ cfg with interfaces :=
          (ns2.name ++ "_" ++ l.name,
            ⟨ns2.name ++ "_" ++ l.name,
             some (ipv4ToString ((b + 2) % 4294967296) ++ "/" ++ natToStr pl),
             some ns2, some 3000⟩) ::
          (ns1.name ++ "_" ++ l.name,
            ⟨ns1.name ++ "_" ++ l.name,
             some (ipv4ToString ((b + 1) % 4294967296) ++ "/" ++ natToStr pl),
             some ns1, some 3000⟩) ::
          cfg.interfaces } : Config)
      ⟨ns1.name ++ "_" ++ l.name,
       some (ipv4ToString ((b + 1) % 4294967296) ++ "/" ++ natToStr pl),
       some ns1, some 3000⟩
      hdup
    simp [Link.attach, Veth.create, hx, hp, hD]
  refine ⟨⟨_, congrArg res3 hA⟩, ?_, ?_, ?_⟩
  · exact congrArg res3 hSecond
  · exact congrArg tr3 hSecond
  · rw [hA]
    rfl

theorem C5_attach_twice_witness :
    res3 (Link.attach allSucceed ⟨"link1", "10.0.0.0/24"⟩ ⟨"r1"⟩ ⟨"r2"⟩
        (cfg3 (Link.attach allSucceed ⟨"link1", "10.0.0.0/24"⟩ ⟨"r1"⟩ ⟨"r2"⟩ ⟨[], [], []⟩))) =
      .error (.nameConflict "Interface" "r1_link1") ∧
    tr3 (Link.attach allSucceed ⟨"link1", "10.0.0.0/24"⟩ ⟨"r1"⟩ ⟨"r2"⟩
        (cfg3 (Link.attach allSucceed ⟨"link1", "10.0.0.0/24"⟩ ⟨"r1"⟩ ⟨"r2"⟩ ⟨[], [], []⟩))) =
      [vethCreateArgs "r1_link1" "r2_link1"] := by
  have h := C5_attach_twice allSucceed ⟨"link1", "10.0.0.0/24"⟩ ⟨"r1"⟩ ⟨"r2"⟩
    ⟨[], [], []⟩ 167772160 24 (fun _ => rfl) (by decide) (by decide) (by decide)
    (by decide)
  exact ⟨h.2.1.trans (by decide), h.2.2.1.trans (by decide)⟩

/-- C2: when every gateway of a Route has an assigned address, the route-add
command is the destination prefix followed by, for each gateway in input
order, a `nexthop via <address>` clause with the address stripped of its
prefix length, and a `weight 1` clause follows every nexthop exactly when the
gateway list has more than one entry; with exactly one gateway no weight
clause appears at all. -/
theorem C2_route_command_shape (ex : Exec) (ns : Namespace) (r : Route)
    (h : ∀ g ∈ r.gateway, g.ip ≠ none) :
    Namespace.add_route ex ns r =
      (.ok (), [["netns", "exec", ns.name, "ip", "route", "add", r.dst]
        ++ (r.gateway.map fun g => ["nexthop", "via", ipPart (g.ip.getD "")]
            ++ (if 1 < r.gateway.length then ["weight", "1"] else [])).flatten]) ∧
    (∀ g, r.gateway = [g] →
      Namespace.add_route ex ns r =
        (.ok (), [["netns", "exec", ns.name, "ip", "route", "add", r.dst,
          "nexthop", "via", ipPart (g.ip.getD "")]])) := by
  have hok := routeNexthops_ok (decide (1 < r.gateway.length)) r.gateway h
  constructor
  · simp only [Namespace.add_route, hok]
    simp [decide_eq_true_eq]
  · intro g hg
    have hgip := h g (by simp [hg])
    cases hip : g.ip with
    | none => exact absurd hip hgip
    | some v =>
      simp [Namespace.add_route, hg, routeNexthops, hip]

theorem C2_route_command_shape_witness :
    (∀ g ∈ ([⟨"i1", some "10.0.0.2/24", none, none⟩,
             ⟨"i2", some "10.0.1.2/24", none, none⟩,
             ⟨"i3", some "10.0.2.2/24", none, none⟩,
             ⟨"i4", some "10.0.3.2/24", none, none⟩,
             ⟨"i5", some "10.0.4.2/24", none, none⟩,
             ⟨"i6", some "10.0.5.2/24", none, none⟩] : List Interface), g.ip ≠ none) ∧
    Namespace.add_route allSucceed ⟨"r1"⟩
      ⟨"192.168.1.0/24",
       [⟨"i1", some "10.0.0.2/24", none, none⟩,
        ⟨"i2", some "10.0.1.2/24", none, none⟩,
        ⟨"i3", some "10.0.2.2/24", none, none⟩,
        ⟨"i4", some "10.0.3.2/24", none, none⟩,
        ⟨"i5", some "10.0.4.2/24", none, none⟩,
        ⟨"i6", some "10.0.5.2/24", none, none⟩]⟩ =
      (.ok (), [["netns", "exec", "r1", "ip", "route", "add", "192.168.1.0/24",
        "nexthop", "via", "10.0.0.2", "weight", "1",
        "nexthop", "via", "10.0.1.2", "weight", "1",
        "nexthop", "via", "10.0.2.2", "weight", "1",
        "nexthop", "via", "10.0.3.2", "weight", "1",
        "nexthop", "via", "10.0.4.2", "weight", "1",
        "nexthop", "via", "10.0.5.2", "weight", "1"]]) ∧
    Namespace.add_route allSucceed ⟨"r1"⟩
      ⟨"192.168.0.0/24", [⟨"i7", some "10.1.2.1/24", none, none⟩]⟩ =
      (.ok (), [["netns", "exec", "r1", "ip", "route", "add", "192.168.0.0/24",
        "nexthop", "via", "10.1.2.1"]]) := by
  refine ⟨by decide, ?_, ?_⟩
  · have h := (C2_route_command_shape allSucceed ⟨"r1"⟩
      ⟨"192.168.1.0/24",
       [⟨"i1", some "10.0.0.2/24", none, none⟩,
        ⟨"i2", some "10.0.1.2/24", none, none⟩,
        ⟨"i3", some "10.0.2.2/24", none, none⟩,
        ⟨"i4", some "10.0.3.2/24", none, none⟩,
        ⟨"i5", some "10.0.4.2/24", none, none⟩,
        ⟨"i6", some "10.0.5.2/24", none, none⟩]⟩ (by decide)).1
    rw [h]
    decide
  · have h := (C2_route_command_shape allSucceed ⟨"r1"⟩
      ⟨"192.168.0.0/24", [⟨"i7", some "10.1.2.1/24", none, none⟩]⟩ (by decide)).2
      ⟨"i7", some "10.1.2.1/24", none, none⟩ rfl
    rw [h]
    decide

/-- C4: `add_route` returns an error exactly when some gateway Interface has
no assigned address (a MissingAddress error naming such a gateway, returned
with no command issued); in every other case it returns success — the result
does not depend on the command executor at all (the route command's status is
never inspected), and an empty gateway list still yields success with the
bare route-add command issued. -/
theorem C4_addRoute_status (ex exB : Exec) (ns : Namespace) (r : Route) :
    ((Namespace.add_route ex ns r).1 = .ok () ↔ ∀ g ∈ r.gateway, g.ip ≠ none) ∧
    ((Namespace.add_route ex ns r).1 ≠ .ok () →
      (Namespace.add_route ex ns r).2 = [] ∧
      ∃ g, g ∈ r.gateway ∧ g.ip = none ∧
        (Namespace.add_route ex ns r).1 = .error (.missingAddress g.name)) ∧
    Namespace.add_route ex ns r = Namespace.add_route exB ns r ∧
    (r.gateway = [] → Namespace.add_route ex ns r =
      (.ok (), [["netns", "exec", ns.name, "ip", "route", "add", r.dst]])) := by
  refine ⟨?_, ?_, rfl, ?_⟩
  · constructor
    · intro hok
      cases hnh : routeNexthops (decide (1 < r.gateway.length)) r.gateway with
      | error e => simp [Namespace.add_route, hnh] at hok
      | ok nh => exact routeNexthops_ok_all _ _ nh hnh
    · intro hall
      have hok := routeNexthops_ok (decide (1 < r.gateway.length)) r.gateway hall
      simp [Namespace.add_route, hok]
  · intro hne
    cases hnh : routeNexthops (decide (1 < r.gateway.length)) r.gateway with
    | ok nh => exact absurd (by simp [Namespace.add_route, hnh]) hne
    | error e =>
      obtain ⟨g, hg, hgip, hge⟩ := routeNexthops_error_char _ _ e hnh
      refine ⟨by simp [Namespace.add_route, hnh], g, hg, hgip, ?_⟩
      simp [Namespace.add_route, hnh, hge]
  · intro hemp
    simp [Namespace.add_route, hemp, routeNexthops]

theorem C4_addRoute_status_witness :
    Namespace.add_route allSucceed ⟨"r1"⟩ ⟨"10.0.0.0/8", []⟩ =
      (.ok (), [["netns", "exec", "r1", "ip", "route", "add", "10.0.0.0/8"]]) ∧
    (Namespace.add_route allSucceed ⟨"r1"⟩
      ⟨"10.0.0.0/8", [⟨"i1", none, none, none⟩]⟩).1 =
        .error (.missingAddress "i1") ∧
    (Namespace.add_route allSucceed ⟨"r1"⟩
      ⟨"10.0.0.0/8", [⟨"i1", none, none, none⟩]⟩).2 = [] := by
  refine ⟨(C4_addRoute_status allSucceed allSucceed ⟨"r1"⟩ ⟨"10.0.0.0/8", []⟩).2.2.2 rfl,
    by decide, ?_⟩
  exact ((C4_addRoute_status allSucceed allSucceed ⟨"r1"⟩
    ⟨"10.0.0.0/8", [⟨"i1", none, none, none⟩]⟩).2.1 (by decide)).1

/-- C6: setting an Interface's address, MTU or up-state with no namespace
issues the host-context form, with a namespace the namespace-scoped form; for
each operation the two forms carry identical device and value arguments and
differ only by the `netns exec <ns> ip` wrapper. -/
theorem C6_dual_mode (ex : Exec) (i : Interface) (n : Namespace) (v : String)
    (m : Nat) :
    (Interface.set_ip ex { i with ns := some n } v).2 =
      [setIpArgs (some n.name) v i.name] ∧
    (Interface.set_ip ex { i with ns := none } v).2 = [setIpArgs none v i.name] ∧
    (Interface.set_mtu ex { i with ns := some n } m).2 =
      [setMtuArgs (some n.name) m i.name] ∧
    (Interface.set_mtu ex { i with ns := none } m).2 = [setMtuArgs none m i.name] ∧
    (Interface.set_up ex { i with ns := some n }).2 =
      [setUpArgs (some n.name) i.name] ∧
    (Interface.set_up ex { i with ns := none }).2 = [setUpArgs none i.name] ∧
    setIpArgs (some n.name) v i.name = nsWrap n.name (setIpArgs none v i.name) ∧
    setMtuArgs (some n.name) m i.name = nsWrap n.name (setMtuArgs none m i.name) ∧
    setUpArgs (some n.name) i.name = nsWrap n.name (setUpArgs none i.name) := by
  refine ⟨?_, ?_, ?_, ?_, ?_, ?_, rfl, rfl, rfl⟩ <;>
    · simp only [Interface.set_ip, Interface.set_mtu, Interface.set_up]
      split <;> rfl

/-- C7, counterexample: the Namespace record carries only its name — it has no
forwarding or ECMP flag — so the `enableEcmp` argument is not observable on
the returned handle: constructing with `ecmp = true` and with `ecmp = false`
returns identical results (while the issued command traces differ). -/
theorem C7_flags_not_on_record_cex :
    res3 (Namespace.new allSucceed "x" true ⟨[], [], []⟩) =
      res3 (Namespace.new allSucceed "x" false ⟨[], [], []⟩) ∧
    res3 (Namespace.new allSucceed "x" true ⟨[], [], []⟩) = .ok ⟨"x"⟩ ∧
    tr3 (Namespace.new allSucceed "x" true ⟨[], [], []⟩) ≠
      tr3 (Namespace.new allSucceed "x" false ⟨[], [], []⟩) := by
  decide

/-- C7 (amended): the Namespace record carries only its name; forwarding is
enabled and, exactly when `enableEcmp` is set, the multipath-hash policy
command is issued at creation — so the `enableEcmp` argument is observable in
the command trace but not on the returned handle, which is `⟨name⟩` for
either flag value. -/
theorem C7_namespace_record (ex : Exec) (name : String) (ecmp : Bool)
    (cfg : Config) (hx : ∀ a, ex a = true)
    (h : lookupKey name cfg.namespaces = none) :
    res3 (Namespace.new ex name ecmp cfg) = .ok ⟨name⟩ ∧
    res3 (Namespace.new ex name true cfg) = res3 (Namespace.new ex name false cfg) ∧
    tr3 (Namespace.new ex name ecmp cfg) =
      [nsAddArgs name, enableRoutingArgs name]
        ++ (if ecmp then [enableEcmpArgs name] else []) := by
  cases ecmp <;>
    simp [Namespace.new, h, Namespace.create, Namespace.enable_routing,
      Namespace.enable_ecmp, hx, res3, tr3]

theorem C7_namespace_record_witness :
    res3 (Namespace.new allSucceed "p1" false ⟨[], [], []⟩) = .ok ⟨"p1"⟩ ∧
    res3 (Namespace.new allSucceed "p1" true ⟨[], [], []⟩) =
      res3 (Namespace.new allSucceed "p1" false ⟨[], [], []⟩) ∧
    tr3 (Namespace.new allSucceed "p1" false ⟨[], [], []⟩) =
      [nsAddArgs "p1", enableRoutingArgs "p1"] := by
  have h := C7_namespace_record allSucceed "p1" false ⟨[], [], []⟩ (fun _ => rfl)
    (by decide)
  exact ⟨h.1, h.2.1, h.2.2.trans (by decide)⟩

/-- C3: for every entity kind, creating a second entity with an
already-registered name fails with NameConflict with zero external commands
and an unchanged registry; a constructor failing at any later step registers
nothing; successful construction registers exactly the new entry and requires
the name to have been free; and every operation (the three constructors and
`Link.attach`) preserves the invariant that no two entities of the same kind
share a name. -/
theorem C3_registry_uniqueness :
    (∀ (ex : Exec) (name : String) (ecmp : Bool) (cfg : Config) (r : Namespace),
      lookupKey name cfg.namespaces = some r →
      Namespace.new ex name ecmp cfg =
        (.error (.nameConflict "Namespace" r.name), cfg, [])) ∧
    (∀ (name subnet : String) (cfg : Config) (r : Link),
      lookupKey name cfg.links = some r →
      Link.new name subnet cfg = (.error (.nameConflict "RouterLink" r.name), cfg, [])) ∧
    (∀ (ex : Exec) (name : String) (ns : Option Namespace) (ip : Option String)
        (mtu : Option Nat) (cfg : Config) (r : Interface),
      lookupKey name cfg.interfaces = some r →
      Interface.new ex name ns ip mtu cfg =
        (.error (.nameConflict "Interface" r.name), cfg, [])) ∧
    (∀ (ex : Exec) (name : String) (ecmp : Bool) (cfg : Config) (e : Err),
      res3 (Namespace.new ex name ecmp cfg) = .error e →
      cfg3 (Namespace.new ex name ecmp cfg) = cfg) ∧
    (∀ (name subnet : String) (cfg : Config) (e : Err),
      res3 (Link.new name subnet cfg) = .error e →
      cfg3 (Link.new name subnet cfg) = cfg) ∧
    (∀ (ex : Exec) (name : String) (ns : Option Namespace) (ip : Option String)
        (mtu : Option Nat) (cfg : Config) (e : Err),
      res3 (Interface.new ex name ns ip mtu cfg) = .error e →
      cfg3 (Interface.new ex name ns ip mtu cfg) = cfg) ∧
    (∀ (ex : Exec) (name : String) (ecmp : Bool) (cfg : Config) (n : Namespace),
      res3 (Namespace.new ex name ecmp cfg) = .ok n →
      lookupKey name cfg.namespaces = none ∧
      cfg3 (Namespace.new ex name ecmp cfg) =
        { cfg with namespaces := (name, n) :: cfg.namespaces }) ∧
    (∀ (name subnet : String) (cfg : Config) (l : Link),
      res3 (Link.new name subnet cfg) = .ok l →
      lookupKey name cfg.links = none ∧
      cfg3 (Link.new name subnet cfg) = { cfg with links := (name, l) :: cfg.links }) ∧
    (∀ (ex : Exec) (name : String) (ns : Option Namespace) (ip : Option String)
        (mtu : Option Nat) (cfg : Config) (i : Interface),
      res3 (Interface.new ex name ns ip mtu cfg) = .ok i →
      lookupKey name cfg.interfaces = none ∧
      cfg3 (Interface.new ex name ns ip mtu cfg) =
        { cfg with interfaces := (name, i) :: cfg.interfaces }) ∧
    (∀ (ex : Exec) (name : String) (ecmp : Bool) (cfg : Config),
      cfg.wf → (cfg3 (Namespace.new ex name ecmp cfg)).wf) ∧
    (∀ (name subnet : String) (cfg : Config),
      cfg.wf → (cfg3 (Link.new name subnet cfg)).wf) ∧
    (∀ (ex : Exec) (name : String) (ns : Option Namespace) (ip : Option String)
        (mtu : Option Nat) (cfg : Config),
      cfg.wf → (cfg3 (Interface.new ex name ns ip mtu cfg)).wf) ∧
    (∀ (ex : Exec) (l : Link) (ns1 ns2 : Namespace) (cfg : Config),
      cfg.wf → (cfg3 (Link.attach ex l ns1 ns2 cfg)).wf) := by
  refine ⟨?_, ?_, ?_, ?_, ?_, ?_, ?_, ?_, ?_, ?_, ?_, ?_, ?_⟩
  · intro ex name ecmp cfg r h
    simp [Namespace.new, h]
  · intro name subnet cfg r h
    simp [Link.new, h]
  · intro ex name ns ip mtu cfg r h
    simp [Interface.new, h]
  · intro ex name ecmp cfg e h
    rcases namespace_new_spec ex name ecmp cfg with
        ⟨r, _, hEq⟩ | ⟨_, ⟨e2, t, hEq⟩ | ⟨t, hEq⟩⟩
    · rw [hEq]; rfl
    · rw [hEq]; rfl
    · rw [hEq] at h; simp [res3] at h
  · intro name subnet cfg e h
    rcases link_new_spec name subnet cfg with ⟨r, _, hEq⟩ | ⟨_, hEq⟩
    · rw [hEq]; rfl
    · rw [hEq] at h; simp [res3] at h
  · intro ex name ns ip mtu cfg e h
    rcases interface_new_spec ex name ns ip mtu cfg with
        ⟨r, _, hEq⟩ | ⟨_, ⟨e2, t, hEq⟩ | ⟨i, t, hEq⟩⟩
    · rw [hEq]; rfl
    · rw [hEq]; rfl
    · rw [hEq] at h; simp [res3] at h
  · intro ex name ecmp cfg n h
    rcases namespace_new_spec ex name ecmp cfg with
        ⟨r, _, hEq⟩ | ⟨hl, ⟨e2, t, hEq⟩ | ⟨t, hEq⟩⟩
    · rw [hEq] at h; simp [res3] at h
    · rw [hEq] at h; simp [res3] at h
    · rw [hEq] at h
      simp only [res3] at h
      cases h
      exact ⟨hl, by rw [hEq]; rfl⟩
  · intro name subnet cfg l h
    rcases link_new_spec name subnet cfg with ⟨r, _, hEq⟩ | ⟨hl, hEq⟩
    · rw [hEq] at h; simp [res3] at h
    · rw [hEq] at h
      simp only [res3] at h
      cases h
      exact ⟨hl, by rw [hEq]; rfl⟩
  · intro ex name ns ip mtu cfg i h
    rcases interface_new_spec ex name ns ip mtu cfg with
        ⟨r, _, hEq⟩ | ⟨hl, ⟨e2, t, hEq⟩ | ⟨i2, t, hEq⟩⟩
    · rw [hEq] at h; simp [res3] at h
    · rw [hEq] at h; simp [res3] at h
    · rw [hEq] at h
      simp only [res3] at h
      cases h
      exact ⟨hl, by rw [hEq]; rfl⟩
  · exact namespace_new_wf
  · exact link_new_wf
  · exact interface_new_wf
  · exact link_attach_wf

theorem C3_registry_uniqueness_witness :
    lookupKey "r1" (Config.namespaces ⟨[("r1", ⟨"r1"⟩)], [], []⟩) = some ⟨"r1"⟩ ∧
    Namespace.new allSucceed "r1" true ⟨[("r1", ⟨"r1"⟩)], [], []⟩ =
      (.error (.nameConflict "Namespace" "r1"), ⟨[("r1", ⟨"r1"⟩)], [], []⟩, []) ∧
    Config.wf (cfg3 (Namespace.new allSucceed "r2" true ⟨[("r1", ⟨"r1"⟩)], [], []⟩)) := by
  refine ⟨by decide, ?_, ?_⟩
  · exact C3_registry_uniqueness.1 allSucceed "r1" true ⟨[("r1", ⟨"r1"⟩)], [], []⟩
      ⟨"r1"⟩ (by decide)
  · exact C3_registry_uniqueness.2.2.2.2.2.2.2.2.2.1 allSucceed "r2" true
      ⟨[("r1", ⟨"r1"⟩)], [], []⟩ (by decide)

/-- C10: the registry keys Interfaces by device name alone, with no namespace
qualification: once a name is registered, `Interface.new` with that name fails
with NameConflict for every choice of namespace (any other namespace or the
host), address and mtu, issuing no command and leaving the registry
unchanged. -/
theorem C10_interface_names_global (ex : Exec) (name : String) (cfg : Config)
    (h : (lookupKey name cfg.interfaces).isSome = true) :
    ∃ r, lookupKey name cfg.interfaces = some r ∧
      ∀ (ns : Option Namespace) (ip : Option String) (mtu : Option Nat),
        Interface.new ex name ns ip mtu cfg =
          (.error (.nameConflict "Interface" r.name), cfg, []) := by
  cases hl : lookupKey name cfg.interfaces with
  | none => rw [hl] at h; simp at h
  | some r => exact ⟨r, rfl, fun ns ip mtu => by simp [Interface.new, hl]⟩

theorem C10_interface_names_global_witness :
    (lookupKey "eth0" (Config.interfaces
      ⟨[("p1", ⟨"p1"⟩), ("p2", ⟨"p2"⟩)], [],
       [("eth0", ⟨"eth0", none, some ⟨"p1"⟩, none⟩)]⟩)).isSome = true ∧
    Interface.new allSucceed "eth0" (some ⟨"p2"⟩) none none
      ⟨[("p1", ⟨"p1"⟩), ("p2", ⟨"p2"⟩)], [],
       [("eth0", ⟨"eth0", none, some ⟨"p1"⟩, none⟩)]⟩ =
      (.error (.nameConflict "Interface" "eth0"),
       ⟨[("p1", ⟨"p1"⟩), ("p2", ⟨"p2"⟩)], [],
        [("eth0", ⟨"eth0", none, some ⟨"p1"⟩, none⟩)]⟩, []) ∧
    Interface.new allSucceed "eth0" none (some "1.2.3.4/24") none
      ⟨[("p1", ⟨"p1"⟩), ("p2", ⟨"p2"⟩)], [],
       [("eth0", ⟨"eth0", none, some ⟨"p1"⟩, none⟩)]⟩ =
      (.error (.nameConflict "Interface" "eth0"),
       ⟨[("p1", ⟨"p1"⟩), ("p2", ⟨"p2"⟩)], [],
        [("eth0", ⟨"eth0", none, some ⟨"p1"⟩, none⟩)]⟩, []) := by
  obtain ⟨r, hr, hall⟩ := C10_interface_names_global allSucceed "eth0"
    ⟨[("p1", ⟨"p1"⟩), ("p2", ⟨"p2"⟩)], [],
     [("eth0", ⟨"eth0", none, some ⟨"p1"⟩, none⟩)]⟩ (by decide)
  have hrv : r = ⟨"eth0", none, some ⟨"p1"⟩, none⟩ :=
    Option.some.inj (hr.symm.trans (by decide))
  refine ⟨by decide, ?_, ?_⟩
  · have h := hall (some ⟨"p2"⟩) none none
    rw [hrv] at h
    exact h
  · have h := hall none (some "1.2.3.4/24") none
    rw [hrv] at h
    exact h

end RouterRs
